import Mathlib

set_option linter.unusedVariables false

/-!
Shallow embedding of the per-thread state management layer of the
openai-chatkit-starter-app backend (`src/chatkit/backend/app/`):
the card-search result cache (`card_search_state.py`), the deck state
(`deck_state.py`), the tool layer (`tools/*.py`) and the relevant parts of
the server wiring (`server.py`, `main.py`).

Python strings are modelled as `List Char`; Python `None`-able values as
`Option`; dictionaries keyed by thread id as total functions from thread id
defaulting to the freshly-created record (the Python managers lazily insert a
default record on first access, which is observationally the same).  Remote
HTTP calls are modelled by passing the outcome of the call (`Except` of an
exception message or a response payload) as an explicit argument.
-/

/-- Python `str` values, modelled as lists of characters. -/
abbrev Chars := List Char

/-- Coerce a Lean string literal to the `Chars` model of Python strings. -/
def chars (s : String) : Chars := s.data

/-- The single-quote character (U+0027), used in several message templates. -/
def squote : Chars := [Char.ofNat 39]

/-- Thread identifiers (opaque strings in the source). -/
abbrev ThreadId := Chars

/-- Decimal rendering of a Python `int`, as used by f-strings. -/
def intStr (n : Int) : Chars := (toString n).data

/-- Decimal rendering of a Python `int` that is a length/count. -/
def natStr (n : Nat) : Chars := (toString n).data

/-- Python truthiness of an optional string: `None` and `""` are falsy. -/
def strTruthy : Option Chars → Bool
  | none => false
  | some [] => false
  | some (_ :: _) => true

/-- Python truthiness of an optional int: `None` and `0` are falsy. -/
def intTruthy : Option Int → Bool
  | none => false
  | some n => decide (n ≠ 0)

/-- `card_search_state.CardSearchResult`: a single card from search results.
`index` is a Python `int`, but it is only ever assigned `i + 1` from
`enumerate`, so it is modelled as `Nat`. -/
structure CardSearchResult where
  index : Nat
  ability : Chars
  raw : Chars
deriving DecidableEq, Repr

/-- A raw card dict as passed to `set_results` (keys `"name"`/`"raw"`,
either of which may be absent: `card.get(..., "")` defaults to `""`). -/
structure RawCard where
  name : Option Chars
  raw : Option Chars
deriving DecidableEq, Repr

/-- `card.get("name", "")`. -/
def RawCard.getName (c : RawCard) : Chars := c.name.getD []

/-- `card.get("raw", "")`. -/
def RawCard.getRawText (c : RawCard) : Chars := c.raw.getD []

/-- The list comprehension in `CardSearchState.set_results`: build
`CardSearchResult`s from `enumerate(cards)` starting at offset `i`,
assigning 1-based indices `i + 1`. -/
def buildResults : Nat → List RawCard → List CardSearchResult
  | _, [] => []
  | i, card :: rest => ⟨i + 1, card.getName, card.getRawText⟩ :: buildResults (i + 1) rest

/-- `card_search_state.CardSearchState`: per-thread card search state. -/
structure CardSearchState where
  query : Option Chars := none
  results : List CardSearchResult := []
deriving DecidableEq, Repr

/-- `CardSearchState.set_results`: overwrite the query and rebuild the
results with 1-based indexing. -/
def CardSearchState.set_results (s : CardSearchState) (query : Chars)
    (cards : List RawCard) : CardSearchState :=
  { s with query := some query, results := buildResults 0 cards }

/-- `CardSearchState.get_card_by_index`: return `results[index - 1]` when
`1 <= index <= len(results)`, else `None`.  `index` is a Python `int` and may
be negative, hence `Int`. -/
def CardSearchState.get_card_by_index (s : CardSearchState) (index : Int) :
    Option CardSearchResult :=
  if 1 ≤ index ∧ index ≤ (s.results.length : Int) then
    s.results.get? (index - 1).toNat
  else
    none

/-- `CardSearchState.has_results`: `len(self.results) > 0`. -/
def CardSearchState.has_results (s : CardSearchState) : Bool :=
  decide (s.results.length > 0)

/-- `card_search_state.CardSearchStateManager`: the per-thread map of card
search states, modelled as a total function defaulting to the fresh record
that `get_state` would lazily insert. -/
def CardSearchStateManager := ThreadId → CardSearchState

/-- A manager in its initial state (`CardSearchStateManager()`). -/
def CardSearchStateManager.empty : CardSearchStateManager := fun _ => {}

/-- `CardSearchStateManager.get_state`: get or create state for a thread. -/
def CardSearchStateManager.get_state (m : CardSearchStateManager)
    (t : ThreadId) : CardSearchState := m t

/-- `CardSearchStateManager.store_results`. -/
def CardSearchStateManager.store_results (m : CardSearchStateManager)
    (t : ThreadId) (q : Chars) (cards : List RawCard) : CardSearchStateManager :=
  fun t2 => if t2 = t then (m t).set_results q cards else m t2

/-- `CardSearchStateManager.get_card`. -/
def CardSearchStateManager.get_card (m : CardSearchStateManager)
    (t : ThreadId) (index : Int) : Option CardSearchResult :=
  (m t).get_card_by_index index

/-- `CardSearchStateManager.has_results`. -/
def CardSearchStateManager.has_results (m : CardSearchStateManager)
    (t : ThreadId) : Bool :=
  (m t).has_results

/-- A JSON object, reduced to the string-valued fields this backend reads. -/
abbrev JsonObj := List (Chars × Chars)

/-- The JSON payload of `LoadDeck.php`, with every key optional
(the source reads them via `.get` with defaults). -/
structure DeckJson where
  metadata : Option JsonObj := none
  leader : Option JsonObj := none
  base : Option JsonObj := none
  deck : Option (List JsonObj) := none
  sideboard : Option (List JsonObj) := none
deriving DecidableEq, Repr

/-- The dictionary returned by `load_deck.fetch_deck_contents`. -/
structure DeckContents where
  deck_id : Int
  metadata : JsonObj
  leader : Option JsonObj
  base : Option JsonObj
  deck : List JsonObj
  sideboard : List JsonObj
  error : Option Chars
deriving DecidableEq, Repr

/-- `load_deck.fetch_deck_contents`: on success map the JSON with `.get`
defaults and `error = None`; on any exception return zeroed data with a
populated `error`.  The HTTP outcome is an explicit argument. -/
def fetch_deck_contents (deck_id : Int) (resp : Except Chars DeckJson) :
    DeckContents :=
  match resp with
  | .ok data =>
      { deck_id := deck_id
        metadata := data.metadata.getD []
        leader := data.leader
        base := data.base
        deck := data.deck.getD []
        sideboard := data.sideboard.getD []
        error := none }
  | .error e =>
      { deck_id := deck_id
        metadata := []
        leader := none
        base := none
        deck := []
        sideboard := []
        error := some (chars "Error loading deck: " ++ e) }

/-- `deck_state.DeckState`: per-thread deck management state. -/
structure DeckState where
  active_deck_id : Option Int := none
  active_deck_name : Option Chars := none
  deck_contents : Option DeckContents := none
deriving DecidableEq, Repr

/-- `DeckState.set_active_deck`: set both fields and clear the cached
contents. -/
def DeckState.set_active_deck (s : DeckState) (deck_id : Int)
    (deck_name : Chars) : DeckState :=
  { s with
    active_deck_id := some deck_id
    active_deck_name := some deck_name
    deck_contents := none }

/-- `DeckState.clear_active_deck`. -/
def DeckState.clear_active_deck (s : DeckState) : DeckState :=
  { s with
    active_deck_id := none
    active_deck_name := none
    deck_contents := none }

/-- `DeckState.has_active_deck`: `self.active_deck_id is not None`. -/
def DeckState.has_active_deck (s : DeckState) : Bool :=
  s.active_deck_id.isSome

/-- `deck_state.DeckStateManager`: the per-thread map of deck states,
modelled as a total function defaulting to the fresh record. -/
def DeckStateManager := ThreadId → DeckState

/-- A manager in its initial state (`DeckStateManager()`). -/
def DeckStateManager.empty : DeckStateManager := fun _ => {}

/-- `DeckStateManager.get_state`: get or create state for a thread. -/
def DeckStateManager.get_state (m : DeckStateManager) (t : ThreadId) :
    DeckState := m t

/-- Replace the state record stored for one thread (in-place mutation of
`self._states[thread_id]` in the source). -/
def DeckStateManager.put_state (m : DeckStateManager) (t : ThreadId)
    (s : DeckState) : DeckStateManager :=
  fun t2 => if t2 = t then s else m t2

/-- `DeckStateManager.set_active_deck`: mutate the thread's record and
return the confirmation message. -/
def DeckStateManager.set_active_deck (m : DeckStateManager) (t : ThreadId)
    (deck_id : Int) (deck_name : Chars) : Chars × DeckStateManager :=
  (chars "✅ Active deck set to: **" ++ deck_name ++ chars "** (ID: "
      ++ intStr deck_id ++ chars ")",
    m.put_state t ((m t).set_active_deck deck_id deck_name))

/-- `DeckStateManager.get_active_deck`. -/
def DeckStateManager.get_active_deck (m : DeckStateManager) (t : ThreadId) :
    Option Int × Option Chars :=
  ((m t).active_deck_id, (m t).active_deck_name)

/-- `DeckStateManager.clear_active_deck`: clear the record; report the old
name when it is truthy (`if old_name:`), else the "none set" message. -/
def DeckStateManager.clear_active_deck (m : DeckStateManager) (t : ThreadId) :
    Chars × DeckStateManager :=
  let old_name := (m t).active_deck_name
  ((if strTruthy old_name then
      chars "✅ Cleared active deck: **" ++ old_name.getD [] ++ chars "**"
    else
      chars "No active deck was set."),
    m.put_state t ((m t).clear_active_deck))

/-- `DeckStateManager.has_active_deck`. -/
def DeckStateManager.has_active_deck (m : DeckStateManager) (t : ThreadId) :
    Bool :=
  (m t).has_active_deck

/-- Split `s` at the first occurrence of `pat`: `some (pre, post)` with
`s = pre ++ pat ++ post` and `pre` shortest, `none` when `pat` does not
occur.  Models the leftmost-match search of Python `re`. -/
def findSplit (pat : Chars) : Chars → Option (Chars × Chars)
  | [] => if pat = [] then some ([], []) else none
  | c :: rest =>
      if pat.isPrefixOf (c :: rest) then
        some ([], (c :: rest).drop pat.length)
      else
        match findSplit pat rest with
        | some (pre, post) => some (c :: pre, post)
        | none => none

/-- `re.search(r"<ul>(.*?)</ul>", body, re.DOTALL)`: the text between the
first `<ul>` and the first `</ul>` after it.  (A lazy match group; the
leftmost match exists exactly when some `</ul>` follows the first `<ul>`.) -/
def findUlContent (body : Chars) : Option Chars :=
  match findSplit (chars "<ul>") body with
  | none => none
  | some (_, rest) =>
      match findSplit (chars "</ul>") rest with
      | none => none
      | some (content, _) => some content

/-- `re.findall(r"<li>(.*?)</li>", s, re.DOTALL)`: successive non-overlapping
lazy matches.  `fuel` bounds the recursion; `s.length + 1` always suffices. -/
def findAllLiAux (fuel : Nat) (s : Chars) : List Chars :=
  match fuel with
  | 0 => []
  | fuel2 + 1 =>
      match findSplit (chars "<li>") s with
      | none => []
      | some (_, rest) =>
          match findSplit (chars "</li>") rest with
          | none => []
          | some (item, after) => item :: findAllLiAux fuel2 after

/-- All `<li>…</li>` item groups of `s`, in document order. -/
def findAllLi (s : Chars) : List Chars := findAllLiAux (s.length + 1) s

/-- One pass of `re.sub(r"<.*?>", "", item)`: the pattern has no `re.DOTALL`,
so `.` does not cross a newline — a `<` matches only when a `>` follows it
with no newline in between, and the span through that first `>` is dropped;
otherwise the `<` stays and scanning continues at the next character. -/
def stripTagsAux (fuel : Nat) (s : Chars) : Chars :=
  match fuel, s with
  | 0, s => s
  | _, [] => []
  | fuel2 + 1, c :: rest =>
      if c = Char.ofNat 60 then
        match findSplit [Char.ofNat 62] rest with
        | some (pre, after) =>
            if Char.ofNat 10 ∈ pre then c :: stripTagsAux fuel2 rest
            else stripTagsAux fuel2 after
        | none => c :: stripTagsAux fuel2 rest
      else
        c :: stripTagsAux fuel2 rest

/-- `re.sub(r"<.*?>", "", item)`. -/
def stripTags (s : Chars) : Chars := stripTagsAux (s.length + 1) s

/-- The characters Python `str.strip()` removes: the Unicode whitespace set
of `str.isspace()` (ASCII whitespace, the C0 separators 0x1C-0x1F, NEL,
NBSP, Ogham space, the U+2000 block, line/paragraph separators, narrow
no-break space, medium mathematical space, ideographic space). -/
def pyWhitespace : Chars :=
  [Char.ofNat 9, Char.ofNat 10, Char.ofNat 11, Char.ofNat 12, Char.ofNat 13,
   Char.ofNat 28, Char.ofNat 29, Char.ofNat 30, Char.ofNat 31, Char.ofNat 32,
   Char.ofNat 133, Char.ofNat 160, Char.ofNat 5760,
   Char.ofNat 8192, Char.ofNat 8193, Char.ofNat 8194, Char.ofNat 8195,
   Char.ofNat 8196, Char.ofNat 8197, Char.ofNat 8198, Char.ofNat 8199,
   Char.ofNat 8200, Char.ofNat 8201, Char.ofNat 8202,
   Char.ofNat 8232, Char.ofNat 8233, Char.ofNat 8239, Char.ofNat 8287,
   Char.ofNat 12288]

/-- Membership in Python's whitespace set. -/
def pyIsSpace (c : Char) : Bool := pyWhitespace.contains c

/-- Python `str.strip()`: trim Unicode whitespace from both ends. -/
def pyStrip (s : Chars) : Chars :=
  ((s.dropWhile pyIsSpace).reverse.dropWhile pyIsSpace).reverse

/-- The cleanup loop of `search_cards_direct`: strip markup, trim, drop
items that are empty after trimming, and build `{"name": …, "raw": …}`. -/
def cleanCards (items : List Chars) : List RawCard :=
  items.filterMap (fun item =>
    let cleaned := pyStrip (stripTags item)
    if cleaned = [] then none
    else some ⟨some cleaned, some cleaned⟩)

/-- The dictionary returned by `card_search.search_cards_direct`. -/
structure SearchOutcome where
  query : Chars
  cards : List RawCard
  count : Nat
  error : Option Chars
deriving DecidableEq, Repr

/-- `card_search.search_cards_direct`: scrape the first `<ul>` block of the
response into card records; no `<ul>` block means zero cards with no error;
any exception means zero cards with a populated error.  The HTTP outcome is
an explicit argument (`.error e` is a raised exception rendered by `str`). -/
def search_cards_direct (query : Chars) (resp : Except Chars Chars) :
    SearchOutcome :=
  match resp with
  | .error e =>
      { query := query
        cards := []
        count := 0
        error := some (chars "Error searching cards: " ++ e) }
  | .ok body =>
      match findUlContent body with
      | none => { query := query, cards := [], count := 0, error := none }
      | some ulContent =>
          let cards := cleanCards (findAllLi ulContent)
          { query := query, cards := cards, count := cards.length, error := none }

/-- The loosely-typed per-request context bag, reduced to the two manager
keys the tools look up via `.get` (absent key = `none`). -/
structure RequestContext where
  deck_manager : Option DeckStateManager := none
  card_search_manager : Option CardSearchStateManager := none

/-- The parts of the agent tool context the tools read: the calling
thread's id and the request context bag. -/
structure ToolContext where
  thread_id : ThreadId
  request_context : RequestContext

/-- `"\n".join(parts)`. -/
def joinLines (parts : List Chars) : Chars :=
  (parts.intersperse (chars "\n")).flatten

/-- The `for i, card in enumerate(result["cards"], 1)` summary lines:
`"{i}. {card.get('name', 'Unknown')}"`. -/
def searchSummaryLines : Nat → List RawCard → List Chars
  | _, [] => []
  | i, card :: rest =>
      (natStr i ++ chars ". " ++ card.name.getD (chars "Unknown"))
        :: searchSummaryLines (i + 1) rest

/-- The observable outcome of one `search_cards_tool` call: the returned
text and the card-search manager afterwards (when one was in the context). -/
structure SearchToolResult where
  reply : Chars
  card_search_manager : Option CardSearchStateManager

/-- `card_search.search_cards_tool`: run the direct search, surface errors
and the empty result as plain text, otherwise store the results in the
state manager looked up from the request context (when present) and return
the numbered summary.  Widget emission is a side channel not modelled. -/
def search_cards_tool (ctx : ToolContext) (query : Chars)
    (resp : Except Chars Chars) : SearchToolResult :=
  let result := search_cards_direct query resp
  match result.error with
  | some e =>
      { reply := chars "Error: " ++ e
        card_search_manager := ctx.request_context.card_search_manager }
  | none =>
      if result.cards = [] then
        { reply := chars "No cards found matching " ++ squote ++ query
            ++ squote ++ chars "."
          card_search_manager := ctx.request_context.card_search_manager }
      else
        let mgr := ctx.request_context.card_search_manager.map
          (fun m => m.store_results ctx.thread_id query result.cards)
        let summary_parts :=
          (chars "Found " ++ natStr result.count ++ chars " card(s) matching "
              ++ squote ++ query ++ squote ++ chars ":\n")
            :: searchSummaryLines 1 result.cards
            ++ [chars "\nYou can reference these cards by their number (1-"
                ++ natStr result.count ++ chars ") in follow-up questions."]
        { reply := joinLines summary_parts, card_search_manager := mgr }

/-- `get_card_from_results.get_card_from_results_tool`: look up the manager
in the request context, then the thread's stored results, then the card. -/
def get_card_from_results_tool (ctx : ToolContext) (card_number : Int) :
    Chars :=
  match ctx.request_context.card_search_manager with
  | none => chars "❌ Card search manager not available."
  | some m =>
      if ¬ m.has_results ctx.thread_id then
        chars "❌ No search results available. Please search for cards first using the search tool."
      else
        match m.get_card ctx.thread_id card_number with
        | none =>
            let n := (m.get_state ctx.thread_id).results.length
            chars "❌ Card number " ++ intStr card_number
              ++ chars " not found. The most recent search returned "
              ++ natStr n ++ chars " card(s). Please use a number between 1 and "
              ++ natStr n ++ chars "."
        | some card =>
            chars "**Card #" ++ natStr card.index ++ chars "**\nAbility: "
              ++ card.ability
              ++ chars "\n\nNote: The card search API provides ability text only. Card IDs and names are not available from the current data source."

/-- The observable outcome of one deck tool call. -/
structure DeckToolResult where
  reply : Chars
  deck_manager : Option DeckStateManager

/-- `set_active_deck.set_active_deck_tool`: set the active deck through the
manager from the request context, then immediately fetch the deck contents
and store them in the deck state, then emit a client effect (side channel
not modelled) and return the confirmation. -/
def set_active_deck_tool (ctx : ToolContext) (deck_id : Int)
    (deck_name : Chars) (loadResp : Except Chars DeckJson) : DeckToolResult :=
  match ctx.request_context.deck_manager with
  | none => { reply := chars "❌ Error: Deck manager not available", deck_manager := none }
  | some dm =>
      let r := dm.set_active_deck ctx.thread_id deck_id deck_name
      let contents := fetch_deck_contents deck_id loadResp
      let st := r.2.get_state ctx.thread_id
      let dm2 := r.2.put_state ctx.thread_id { st with deck_contents := some contents }
      { reply := r.1, deck_manager := some dm2 }

/-- The dictionary returned by `deck_list.fetch_user_decks`; the response
payload is the optional `"decks"` key of the JSON body. -/
structure DecksOutcome where
  decks : List JsonObj
  count : Nat
  error : Option Chars
deriving DecidableEq, Repr

/-- `deck_list.fetch_user_decks`. -/
def fetch_user_decks (resp : Except Chars (Option (List JsonObj))) :
    DecksOutcome :=
  match resp with
  | .ok data =>
      let decks := data.getD []
      { decks := decks, count := decks.length, error := none }
  | .error e =>
      { decks := [], count := 0
        error := some (chars "Error fetching deck lists: " ++ e) }

/-- `deck_list.get_user_decks_tool`: fetch the deck list and return plain
text; the full list only goes to the widget (side channel not modelled). -/
def get_user_decks_tool (resp : Except Chars (Option (List JsonObj))) :
    Chars :=
  let result := fetch_user_decks resp
  match result.error with
  | some e => chars "Error: " ++ e
  | none =>
      if result.decks = [] then
        chars "You don't have any deck lists saved yet."
      else
        chars "Found " ++ natStr result.count ++ chars " deck list(s)."

/-- `server.StarterChatServer`: the conversation state store is not
modelled; the deck manager is the per-server state the claims concern. -/
structure StarterChatServer where
  deck_manager : DeckStateManager

/-- `StarterChatServer()` as built by `main.py`. -/
def StarterChatServer.init : StarterChatServer :=
  { deck_manager := DeckStateManager.empty }

/-- The request context as populated by `StarterChatServer.respond`: the
incoming context `{"request": request}` plus `context["deck_manager"]`.
No `card_search_manager` key is ever set. -/
def StarterChatServer.respond_context (s : StarterChatServer) :
    RequestContext :=
  { deck_manager := some s.deck_manager, card_search_manager := none }

/-- The tools registered on `assistant_agent` in `server.py`. -/
def assistant_agent_tool_names : List Chars :=
  [chars "search_cards_tool", chars "get_user_decks_tool",
    chars "set_active_deck_tool", chars "get_active_deck_tool"]

/-- An event yielded by the select-deck action handler: an in-place widget
replacement (recorded by the highlighting-relevant data it carries) or an
appended assistant message. -/
inductive ActionEvent where
  | replacedWidget (active_deck_id : Option Int) (active_deck_name : Option Chars)
  | message (text : Chars)
deriving DecidableEq, Repr

/-- The observable outcome of `_handle_select_deck_action`. -/
structure ActionResult where
  events : List ActionEvent
  deck_manager : DeckStateManager

/-- The `action.payload` of a `select_deck` widget action (keys read via
`.get`, so both optional). -/
structure SelectDeckPayload where
  deck_id : Option Int
  deck_name : Option Chars
deriving DecidableEq, Repr

/-- `server.StarterChatServer._handle_select_deck_action`: validate the
payload (Python truthiness: missing, `0`, and `""` are rejected), set the
active deck through the server's deck manager, re-fetch the deck list, and
when it is non-empty and a sender widget exists, replace the widget in
place; always append the confirmation message.  Deck contents are not
fetched here. -/
def handle_select_deck_action (dm : DeckStateManager) (thread_id : ThreadId)
    (payload : SelectDeckPayload) (sender_present : Bool)
    (decksResp : Except Chars (Option (List JsonObj))) : ActionResult :=
  if ¬ (intTruthy payload.deck_id ∧ strTruthy payload.deck_name) then
    { events := [.message (chars "❌ Error: Could not select deck - missing information")]
      deck_manager := dm }
  else
    let deck_id := payload.deck_id.getD 0
    let deck_name := payload.deck_name.getD []
    let r := dm.set_active_deck thread_id deck_id deck_name
    let deck_result := fetch_user_decks decksResp
    let widget_events :=
      if deck_result.decks ≠ [] ∧ sender_present then
        [ActionEvent.replacedWidget (r.2.get_active_deck thread_id).1
          (r.2.get_active_deck thread_id).2]
      else []
    { events := widget_events ++ [.message r.1], deck_manager := r.2 }

/-- The JSON served by the `/api/deck-state/{thread_id}` endpoint. -/
structure DeckStateResponse where
  active_deck_id : Option Int
  active_deck_name : Option Chars
  deck_contents : Option DeckContents
deriving DecidableEq, Repr

/-- The observable outcome of one `get_deck_state` request: the response,
the deck manager afterwards, and whether a remote `LoadDeck` call was made. -/
structure GetDeckStateResult where
  response : DeckStateResponse
  deck_manager : DeckStateManager
  fetched : Bool

/-- `main.get_deck_state`: serve the thread's deck state; when an active
deck id is truthy and no contents are cached (`None`; the fetched records
are never empty dicts, so Python truthiness coincides with `Option`),
fetch the contents, serve them, and cache them in the manager. -/
def get_deck_state (dm : DeckStateManager) (thread_id : ThreadId)
    (loadResp : Except Chars DeckJson) : GetDeckStateResult :=
  let st := dm.get_state thread_id
  if intTruthy st.active_deck_id ∧ st.deck_contents = none then
    let contents := fetch_deck_contents (st.active_deck_id.getD 0) loadResp
    { response :=
        { active_deck_id := st.active_deck_id
          active_deck_name := st.active_deck_name
          deck_contents := some contents }
      deck_manager := dm.put_state thread_id { st with deck_contents := some contents }
      fetched := true }
  else
    { response :=
        { active_deck_id := st.active_deck_id
          active_deck_name := st.active_deck_name
          deck_contents := st.deck_contents }
      deck_manager := dm
      fetched := false }

/-- The 1-based indexing invariant of stored card-search results:
`results[i].index == i + 1` for every position. -/
def indexInvariant (s : CardSearchState) : Prop :=
  ∀ i (h : i < s.results.length), (s.results.get ⟨i, h⟩).index = i + 1

/-- A mutating operation on the card-search store (the reads `get_state`,
`get_results`, `get_card`, `has_results`, `to_dict` do not change it). -/
inductive CSOp where
  | store (t : ThreadId) (q : Chars) (cards : List RawCard)

/-- Apply one store operation. -/
def applyCSOp (m : CardSearchStateManager) : CSOp → CardSearchStateManager
  | .store t q cards => m.store_results t q cards

/-- Apply a sequence of store operations in order. -/
def applyCSOps (m : CardSearchStateManager) (ops : List CSOp) :
    CardSearchStateManager :=
  ops.foldl applyCSOp m

/-- One `search_cards_tool` invocation: the query and the HTTP outcome the
remote endpoint produced for it. -/
structure SearchInvocation where
  query : Chars
  resp : Except Chars Chars
deriving Repr

/-- Run a sequence of `search_cards_tool` invocations on one thread, with
the card-search manager present in the request context each time, threading
the manager state through. -/
def runSearches (m : CardSearchStateManager) (t : ThreadId) :
    List SearchInvocation → CardSearchStateManager
  | [] => m
  | inv :: rest =>
      let r := search_cards_tool ⟨t, { card_search_manager := some m }⟩ inv.query inv.resp
      runSearches (r.card_search_manager.getD m) t rest

/-- The query and cards of an invocation exactly when its search succeeded
with at least one card (the only case in which the tool stores anything). -/
def successfulCards (inv : SearchInvocation) : Option (Chars × List RawCard) :=
  let r := search_cards_direct inv.query inv.resp
  match r.error with
  | some _ => none
  | none => if r.cards = [] then none else some (inv.query, r.cards)

/-- The most recent invocation of the list that succeeded with at least one
card, scanning left to right with accumulator `acc`. -/
def lastSuccess (acc : Option (Chars × List RawCard)) :
    List SearchInvocation → Option (Chars × List RawCard)
  | [] => acc
  | inv :: rest =>
      lastSuccess
        (match successfulCards inv with
          | some p => some p
          | none => acc) rest

/-- A two-result stored state used to exercise the index API. -/
def csSample : CardSearchState :=
  { query := some (chars "luke")
    results := [⟨1, chars "Luke Skywalker", chars "Luke Skywalker"⟩,
                ⟨2, chars "Jedi Luke", chars "Jedi Luke"⟩] }

/-- A search response body whose `<ul>` block holds one card. -/
def bodyLuke : Chars := chars "<ul><li>Luke Skywalker</li></ul>"

/-- A search response body whose `<ul>` block holds one other card. -/
def bodyJedi : Chars := chars "<ul><li>Jedi Luke</li></ul>"

/-- A search response body with no `<ul>` block. -/
def bodyNoUl : Chars := chars "<p>down for maintenance</p>"

/-- Twelve deck summaries as returned by `GetUserDecks.php`. -/
def twelveDecks : List JsonObj := List.replicate 12 []

/-- A deck state with contents cached for deck 42. -/
def deckStateCached : DeckState :=
  { active_deck_id := some 42
    active_deck_name := some (chars "Mill Deck")
    deck_contents := some (fetch_deck_contents 42 (.ok {})) }

theorem buildResults_length (cards : List RawCard) :
    ∀ k, (buildResults k cards).length = cards.length := by
  induction cards with
  | nil => intro k; rfl
  | cons c cs ih => intro k; simp [buildResults, ih]

theorem buildResults_index (cards : List RawCard) :
    ∀ k i (h : i < (buildResults k cards).length),
      ((buildResults k cards).get ⟨i, h⟩).index = k + i + 1 := by
  induction cards with
  | nil => intro k i h; simp [buildResults] at h
  | cons c cs ih =>
      intro k i h
      cases i with
      | zero => rfl
      | succ j =>
          have h2 : j < (buildResults (k + 1) cs).length := by
            simpa [buildResults] using h
          have step : (buildResults k (c :: cs)).get ⟨j + 1, h⟩
              = (buildResults (k + 1) cs).get ⟨j, h2⟩ := rfl
          rw [step, ih (k + 1) j h2]
          omega

theorem indexInvariant_set_results (s : CardSearchState) (q : Chars)
    (cards : List RawCard) : indexInvariant (s.set_results q cards) := by
  intro i h
  have h2 : i < (buildResults 0 cards).length := by
    simpa [CardSearchState.set_results] using h
  have step : ((s.set_results q cards).results.get ⟨i, h⟩).index
      = ((buildResults 0 cards).get ⟨i, h2⟩).index := rfl
  rw [step, buildResults_index cards 0 i h2]
  omega

theorem indexInvariant_empty (t : ThreadId) :
    indexInvariant (CardSearchStateManager.empty t) := by
  intro i h
  simp [CardSearchStateManager.empty] at h

theorem indexInvariant_applyCSOps (ops : List CSOp) :
    ∀ (m : CardSearchStateManager), (∀ t, indexInvariant (m t)) →
      ∀ t, indexInvariant (applyCSOps m ops t) := by
  induction ops with
  | nil => intro m hm t; exact hm t
  | cons op rest ih =>
      intro m hm t
      refine ih (applyCSOp m op) ?_ t
      intro t2
      cases op with
      | store t0 q cards =>
          by_cases he : t2 = t0
          · simpa [applyCSOp, CardSearchStateManager.store_results, he] using
              indexInvariant_set_results (m t0) q cards
          · simpa [applyCSOp, CardSearchStateManager.store_results, he] using hm t2

/-- C2: for every thread and every list of raw card dicts passed to
`set_results`, the stored sequence satisfies `results[i].index == i + 1` for
every position `i`, and the invariant holds for every thread's state in
every store reachable by any sequence of store operations. -/
theorem set_results_index_invariant :
    (∀ (s : CardSearchState) (q : Chars) (cards : List RawCard),
        indexInvariant (s.set_results q cards))
    ∧ (∀ (ops : List CSOp) (t : ThreadId),
        indexInvariant ((applyCSOps CardSearchStateManager.empty ops).get_state t)) := by
  refine ⟨indexInvariant_set_results, ?_⟩
  intro ops t
  exact indexInvariant_applyCSOps ops CardSearchStateManager.empty indexInvariant_empty t

/-- Witness for C2: `set_results` on one concrete card stores index 1, and a
concrete two-op store sequence leaves index 1 at position 0. -/
theorem set_results_index_invariant_witness :
    (∃ h : 0 < (({} : CardSearchState).set_results (chars "luke")
        [⟨some (chars "Luke Skywalker"), some (chars "Luke Skywalker")⟩]).results.length,
      ((({} : CardSearchState).set_results (chars "luke")
        [⟨some (chars "Luke Skywalker"), some (chars "Luke Skywalker")⟩]).results.get
          ⟨0, h⟩).index = 0 + 1)
    ∧ (∃ h : 0 < ((applyCSOps CardSearchStateManager.empty
        [.store (chars "t1") (chars "luke")
          [⟨some (chars "Luke Skywalker"), none⟩, ⟨none, some (chars "raw")⟩],
         .store (chars "t1") (chars "jedi")
          [⟨some (chars "Jedi Luke"), some (chars "Jedi Luke")⟩]]).get_state
            (chars "t1")).results.length,
      (((applyCSOps CardSearchStateManager.empty
        [.store (chars "t1") (chars "luke")
          [⟨some (chars "Luke Skywalker"), none⟩, ⟨none, some (chars "raw")⟩],
         .store (chars "t1") (chars "jedi")
          [⟨some (chars "Jedi Luke"), some (chars "Jedi Luke")⟩]]).get_state
            (chars "t1")).results.get ⟨0, h⟩).index = 0 + 1) := by
  constructor
  · exact ⟨by decide, set_results_index_invariant.1 {} (chars "luke")
      [⟨some (chars "Luke Skywalker"), some (chars "Luke Skywalker")⟩] 0 (by decide)⟩
  · exact ⟨by decide, set_results_index_invariant.2
      [.store (chars "t1") (chars "luke")
        [⟨some (chars "Luke Skywalker"), none⟩, ⟨none, some (chars "raw")⟩],
       .store (chars "t1") (chars "jedi")
        [⟨some (chars "Jedi Luke"), some (chars "Jedi Luke")⟩]] (chars "t1") 0 (by decide)⟩

/-- C3: for a stored result list of length `n`, `get_card_by_index` returns
the record at position `index - 1` exactly when `1 <= index <= n`, and
returns `none` (no exception is modelled or needed) for every other
integer, including `0`, negatives, and values greater than `n`. -/
theorem get_card_by_index_spec (s : CardSearchState) (index : Int) :
    (∀ (h1 : 1 ≤ index) (h2 : index ≤ (s.results.length : Int)),
        ∃ hlt : (index - 1).toNat < s.results.length,
          s.get_card_by_index index = some (s.results.get ⟨(index - 1).toNat, hlt⟩))
    ∧ (¬ (1 ≤ index ∧ index ≤ (s.results.length : Int)) →
        s.get_card_by_index index = none) := by
  constructor
  · intro h1 h2
    have hlt : (index - 1).toNat < s.results.length := by omega
    refine ⟨hlt, ?_⟩
    simp only [CardSearchState.get_card_by_index]
    rw [if_pos ⟨h1, h2⟩]
    exact List.get?_eq_get hlt
  · intro h
    simp only [CardSearchState.get_card_by_index]
    rw [if_neg h]

/-- Witness for C3: on a concrete two-result state, index 2 returns the
second record and 0, -3, 5 return `none`. -/
theorem get_card_by_index_spec_witness :
    csSample.get_card_by_index 2 = some ⟨2, chars "Jedi Luke", chars "Jedi Luke"⟩
    ∧ csSample.get_card_by_index 0 = none
    ∧ csSample.get_card_by_index (-3) = none
    ∧ csSample.get_card_by_index 5 = none := by
  refine ⟨?_, ?_, ?_, ?_⟩
  · obtain ⟨hlt, he⟩ := (get_card_by_index_spec csSample 2).1 (by decide) (by decide)
    rw [he]
    rfl
  · exact (get_card_by_index_spec csSample 0).2 (by decide)
  · exact (get_card_by_index_spec csSample (-3)).2 (by decide)
  · exact (get_card_by_index_spec csSample 5).2 (by decide)

/-- C6: `DeckState.set_active_deck` sets both `active_deck_id` and
`active_deck_name` and always sets `deck_contents` to `none`, including
when contents were previously cached (for any deck id, in particular the
same one). -/
theorem set_active_deck_clears_contents (s : DeckState) (deck_id : Int)
    (deck_name : Chars) :
    (s.set_active_deck deck_id deck_name).active_deck_id = some deck_id
    ∧ (s.set_active_deck deck_id deck_name).active_deck_name = some deck_name
    ∧ (s.set_active_deck deck_id deck_name).deck_contents = none
    ∧ (∀ c : DeckContents, s.deck_contents = some c → c.deck_id = deck_id →
        (s.set_active_deck deck_id deck_name).deck_contents = none) :=
  ⟨rfl, rfl, rfl, fun _ _ _ => rfl⟩

/-- Witness for C6: re-selecting deck 42 on a state whose cache holds
contents for deck 42 still clears the cache. -/
theorem set_active_deck_clears_contents_witness :
    (deckStateCached.set_active_deck 42 (chars "Mill Deck")).deck_contents = none :=
  (set_active_deck_clears_contents deckStateCached 42 (chars "Mill Deck")).2.2.2
    (fetch_deck_contents 42 (.ok {})) rfl rfl

/-- Counterexample to C7 as stated: after `set_active_deck(42, "")` a deck
is active (`has_active_deck` is true), yet `clear_active_deck` reports
"No active deck was set." rather than a confirmation naming the previously
active deck's name, because the source tests the old name for Python
truthiness and the empty string is falsy. -/
theorem clear_active_deck_empty_name_counterexample :
    ((DeckStateManager.empty.set_active_deck (chars "t1") 42 []).2.has_active_deck
        (chars "t1")) = true
    ∧ (((DeckStateManager.empty.set_active_deck (chars "t1") 42 []).2.clear_active_deck
        (chars "t1")).1 = chars "No active deck was set.") := by
  exact ⟨by decide, by decide⟩

/-- C7 amended: `clear_active_deck` never fails: it returns the
confirmation naming the previous deck name when that name was non-empty,
and the "none set" indication otherwise — including when a deck with an
empty name was active; afterwards the thread's deck state has no active
deck and no cached contents. -/
theorem clear_active_deck_spec (m : DeckStateManager) (t : ThreadId) :
    (∀ n : Chars, (m.get_state t).active_deck_name = some n → n ≠ [] →
        (m.clear_active_deck t).1
          = chars "✅ Cleared active deck: **" ++ n ++ chars "**")
    ∧ (((m.get_state t).active_deck_name = none
          ∨ (m.get_state t).active_deck_name = some []) →
        (m.clear_active_deck t).1 = chars "No active deck was set.")
    ∧ ((m.clear_active_deck t).2.has_active_deck t) = false
    ∧ (m.clear_active_deck t).2.get_state t = {} := by
  refine ⟨?_, ?_, ?_, ?_⟩
  · intro n hn hne
    simp only [DeckStateManager.get_state] at hn
    simp only [DeckStateManager.clear_active_deck, hn]
    cases n with
    | nil => exact absurd rfl hne
    | cons a l => simp [strTruthy]
  · intro hn
    simp only [DeckStateManager.get_state] at hn
    rcases hn with hn | hn <;>
      simp only [DeckStateManager.clear_active_deck, hn] <;> simp [strTruthy]
  · simp [DeckStateManager.clear_active_deck, DeckStateManager.has_active_deck,
      DeckStateManager.put_state, DeckState.clear_active_deck, DeckState.has_active_deck]
  · simp only [DeckStateManager.clear_active_deck, DeckStateManager.put_state,
      DeckStateManager.get_state]
    simp [DeckState.clear_active_deck]

/-- Witness for C7 amended: set deck (42, "Mill Deck"), clear it (naming it),
clear again (none-set message), no active deck afterwards. -/
theorem clear_active_deck_spec_witness :
    (((DeckStateManager.empty.set_active_deck (chars "t9") 42 (chars "Mill Deck")).2.clear_active_deck
        (chars "t9")).1 = chars "✅ Cleared active deck: **" ++ chars "Mill Deck" ++ chars "**")
    ∧ ((((DeckStateManager.empty.set_active_deck (chars "t9") 42 (chars "Mill Deck")).2.clear_active_deck
        (chars "t9")).2.clear_active_deck (chars "t9")).1 = chars "No active deck was set.")
    ∧ (((DeckStateManager.empty.set_active_deck (chars "t9") 42 (chars "Mill Deck")).2.clear_active_deck
        (chars "t9")).2.has_active_deck (chars "t9")) = false := by
  refine ⟨?_, ?_, ?_⟩
  · exact (clear_active_deck_spec
      (DeckStateManager.empty.set_active_deck (chars "t9") 42 (chars "Mill Deck")).2
      (chars "t9")).1 (chars "Mill Deck") (by decide) (by decide)
  · exact (clear_active_deck_spec
      ((DeckStateManager.empty.set_active_deck (chars "t9") 42 (chars "Mill Deck")).2.clear_active_deck
        (chars "t9")).2 (chars "t9")).2.1 (Or.inl (by decide))
  · exact (clear_active_deck_spec
      (DeckStateManager.empty.set_active_deck (chars "t9") 42 (chars "Mill Deck")).2
      (chars "t9")).2.2.1

/-- C1 (the code contradicts the claim): through the server's own `respond`
wiring the request context carries no `card_search_manager`, so even a
search that succeeds with one card stores nothing, and a following
`get_card_from_results` call on the same thread answers with the
manager-unavailable message instead of the stored card; the index tool is
not even registered on the agent. -/
theorem search_results_never_stored_by_server_wiring :
    (search_cards_direct (chars "Luke") (.ok bodyLuke)).error = none
    ∧ (search_cards_direct (chars "Luke") (.ok bodyLuke)).cards ≠ []
    ∧ (search_cards_tool ⟨chars "t1", StarterChatServer.init.respond_context⟩
        (chars "Luke") (.ok bodyLuke)).card_search_manager = none
    ∧ get_card_from_results_tool ⟨chars "t1", StarterChatServer.init.respond_context⟩ 1
        = chars "❌ Card search manager not available."
    ∧ chars "get_card_from_results_tool" ∉ assistant_agent_tool_names := by
  refine ⟨by decide, by decide, rfl, by decide, by decide⟩

/-- C8: the two failure shapes of the card-search client are distinguished:
a response body with no `<ul>` block yields zero cards with no error and
the tool replies "No cards found matching '<query>'."; an exception yields
zero cards with a populated (non-empty) error string which the tool
surfaces as text — in both cases nothing is stored and no partial results
exist. -/
theorem search_failure_shapes (ctx : ToolContext) (query body e : Chars)
    (hnoul : findUlContent body = none) :
    (search_cards_direct query (.ok body)).cards = []
    ∧ (search_cards_direct query (.ok body)).error = none
    ∧ (search_cards_tool ctx query (.ok body)).reply
        = chars "No cards found matching " ++ squote ++ query ++ squote ++ chars "."
    ∧ (search_cards_tool ctx query (.ok body)).card_search_manager
        = ctx.request_context.card_search_manager
    ∧ (search_cards_direct query (.error e)).cards = []
    ∧ (search_cards_direct query (.error e)).error
        = some (chars "Error searching cards: " ++ e)
    ∧ chars "Error searching cards: " ++ e ≠ []
    ∧ (search_cards_tool ctx query (.error e)).reply
        = chars "Error: " ++ (chars "Error searching cards: " ++ e)
    ∧ (search_cards_tool ctx query (.error e)).card_search_manager
        = ctx.request_context.card_search_manager := by
  refine ⟨?_, ?_, ?_, ?_, ?_, ?_, ?_, ?_, ?_⟩ <;>
    simp [search_cards_direct, search_cards_tool, hnoul, chars]

/-- Witness for C8 at a concrete `<ul>`-free body and a concrete exception. -/
theorem search_failure_shapes_witness :
    findUlContent bodyNoUl = none
    ∧ ((search_cards_direct (chars "Luke") (.ok bodyNoUl)).cards = []
      ∧ (search_cards_direct (chars "Luke") (.ok bodyNoUl)).error = none
      ∧ (search_cards_tool ⟨chars "t1", ⟨none, none⟩⟩ (chars "Luke") (.ok bodyNoUl)).reply
          = chars "No cards found matching " ++ squote ++ chars "Luke" ++ squote ++ chars "."
      ∧ (search_cards_tool ⟨chars "t1", ⟨none, none⟩⟩ (chars "Luke") (.ok bodyNoUl)).card_search_manager
          = (⟨chars "t1", ⟨none, none⟩⟩ : ToolContext).request_context.card_search_manager
      ∧ (search_cards_direct (chars "Luke") (.error (chars "timeout"))).cards = []
      ∧ (search_cards_direct (chars "Luke") (.error (chars "timeout"))).error
          = some (chars "Error searching cards: " ++ chars "timeout")
      ∧ chars "Error searching cards: " ++ chars "timeout" ≠ []
      ∧ (search_cards_tool ⟨chars "t1", ⟨none, none⟩⟩ (chars "Luke") (.error (chars "timeout"))).reply
          = chars "Error: " ++ (chars "Error searching cards: " ++ chars "timeout")
      ∧ (search_cards_tool ⟨chars "t1", ⟨none, none⟩⟩ (chars "Luke") (.error (chars "timeout"))).card_search_manager
          = (⟨chars "t1", ⟨none, none⟩⟩ : ToolContext).request_context.card_search_manager) :=
  ⟨by decide,
    search_failure_shapes ⟨chars "t1", ⟨none, none⟩⟩ (chars "Luke") bodyNoUl
      (chars "timeout") (by decide)⟩

theorem set_results_const (s s2 : CardSearchState) (q : Chars)
    (cards : List RawCard) : s.set_results q cards = s2.set_results q cards := by
  simp [CardSearchState.set_results]

theorem store_results_self (m : CardSearchStateManager) (t : ThreadId)
    (q : Chars) (cards : List RawCard) :
    (m.store_results t q cards).get_state t = (m.get_state t).set_results q cards := by
  simp [CardSearchStateManager.store_results, CardSearchStateManager.get_state]

theorem searchStep_manager (m : CardSearchStateManager) (t : ThreadId)
    (inv : SearchInvocation) :
    (search_cards_tool ⟨t, { card_search_manager := some m }⟩ inv.query
        inv.resp).card_search_manager.getD m
      = match successfulCards inv with
        | some (q, cards) => m.store_results t q cards
        | none => m := by
  simp only [search_cards_tool, successfulCards]
  cases he : (search_cards_direct inv.query inv.resp).error with
  | some e => simp [he]
  | none =>
      by_cases hc : (search_cards_direct inv.query inv.resp).cards = []
      · simp [he, hc]
      · simp [he, hc]

theorem lastSuccess_acc (invs : List SearchInvocation) :
    ∀ acc, lastSuccess acc invs
      = match lastSuccess none invs with
        | some p => some p
        | none => acc := by
  induction invs with
  | nil => intro acc; simp [lastSuccess]
  | cons inv rest ih =>
      intro acc
      simp only [lastSuccess]
      cases hs : successfulCards inv with
      | some p =>
          rw [ih (some p)]
          rcases h2 : lastSuccess none rest with _ | q <;> simp [h2]
      | none => exact ih acc

/-- Counterexample to C4 as stated: a search that finds no cards stores
nothing, so after a successful "Luke" search followed by an empty "zzz"
search the stored query is still "Luke" — not that of the most recent
search. -/
theorem latest_search_retained_counterexample :
    ((runSearches CardSearchStateManager.empty (chars "t1")
        [⟨chars "Luke", .ok bodyLuke⟩, ⟨chars "zzz", .ok bodyNoUl⟩]).get_state
          (chars "t1")).query = some (chars "Luke")
    ∧ ((runSearches CardSearchStateManager.empty (chars "t1")
        [⟨chars "Luke", .ok bodyLuke⟩, ⟨chars "zzz", .ok bodyNoUl⟩]).get_state
          (chars "t1")).query ≠ some (chars "zzz") := by
  exact ⟨by decide, by decide⟩

/-- C4 amended: with the card-search manager present in the request context
(the claim's premise; `respond` itself never provides one), after any
sequence of search-tool invocations on one thread the thread's stored state
is exactly that of the most recent invocation whose search succeeded with
at least one card — its query and its results — and is unchanged when there
is no such invocation: a successful non-empty search overwrites everything,
an erroring or empty search overwrites nothing. -/
theorem latest_successful_search_retained (m : CardSearchStateManager)
    (t : ThreadId) (invs : List SearchInvocation) :
    (runSearches m t invs).get_state t
      = match lastSuccess none invs with
        | some (q, cards) => (m.get_state t).set_results q cards
        | none => m.get_state t := by
  induction invs generalizing m with
  | nil => rfl
  | cons inv rest ih =>
      simp only [runSearches]
      rw [searchStep_manager m t inv]
      simp only [lastSuccess]
      cases hs : successfulCards inv with
      | none =>
          rw [ih m]
      | some p =>
          obtain ⟨q, cards⟩ := p
          rw [ih (m.store_results t q cards)]
          rw [lastSuccess_acc rest (some (q, cards))]
          cases h2 : lastSuccess none rest with
          | some p2 =>
              obtain ⟨q2, c2⟩ := p2
              exact set_results_const _ _ q2 c2
          | none => exact store_results_self m t q cards

/-- Counterexample to C5 as stated: the select-deck widget action completes
normally — updating the deck state, replacing the widget in place and
appending the confirmation — yet leaves `deck_contents` uncached (`none`):
it never fetches contents for the new deck id, unlike the agent tool. -/
theorem select_deck_action_does_not_cache_contents :
    ((handle_select_deck_action DeckStateManager.empty (chars "t1")
        ⟨some 42, some (chars "Mill Deck")⟩ true
        (.ok (some twelveDecks))).deck_manager.get_state (chars "t1"))
      = { active_deck_id := some 42, active_deck_name := some (chars "Mill Deck"),
          deck_contents := none }
    ∧ (handle_select_deck_action DeckStateManager.empty (chars "t1")
        ⟨some 42, some (chars "Mill Deck")⟩ true
        (.ok (some twelveDecks))).events
      = [.replacedWidget (some 42) (some (chars "Mill Deck")),
         .message (chars "✅ Active deck set to: **Mill Deck** (ID: 42)")] := by
  exact ⟨by decide, by decide⟩

/-- C5 amended: the agent tool updates the thread's deck state, clears the
previously cached contents, and synchronously fetches and caches fresh
contents for the new deck id before completing; the select-deck widget
action updates the deck state and clears the cached contents through the
same manager operation, but does not fetch or cache contents before
completing (they are fetched lazily by the deck-state read endpoint). -/
theorem set_active_deck_paths_spec (dm : DeckStateManager) (ctx : ToolContext)
    (t : ThreadId) (deck_id : Int) (deck_name : Chars)
    (loadResp : Except Chars DeckJson) (sender_present : Bool)
    (decksResp : Except Chars (Option (List JsonObj)))
    (hctx : ctx.request_context.deck_manager = some dm)
    (hid : deck_id ≠ 0) (hname : deck_name ≠ []) :
    (∃ dm2, (set_active_deck_tool ctx deck_id deck_name loadResp).deck_manager = some dm2
        ∧ dm2.get_state ctx.thread_id
          = { active_deck_id := some deck_id, active_deck_name := some deck_name,
              deck_contents := some (fetch_deck_contents deck_id loadResp) })
    ∧ ((handle_select_deck_action dm t ⟨some deck_id, some deck_name⟩
          sender_present decksResp).deck_manager.get_state t
        = { active_deck_id := some deck_id, active_deck_name := some deck_name,
            deck_contents := none }) := by
  constructor
  · simp only [set_active_deck_tool, hctx]
    refine ⟨_, rfl, ?_⟩
    simp [DeckStateManager.set_active_deck, DeckStateManager.put_state,
      DeckStateManager.get_state, DeckState.set_active_deck]
  · cases deck_name with
    | nil => exact absurd rfl hname
    | cons a l =>
        simp only [handle_select_deck_action, intTruthy, strTruthy]
        rw [if_neg (by simp [hid])]
        simp [DeckStateManager.set_active_deck, DeckStateManager.put_state,
          DeckStateManager.get_state, DeckState.set_active_deck]

/-- Witness for C5 amended at deck (42, "Mill Deck") on a fresh manager. -/
theorem set_active_deck_paths_spec_witness :
    (⟨chars "t1", ⟨some DeckStateManager.empty, none⟩⟩ : ToolContext).request_context.deck_manager
      = some DeckStateManager.empty
    ∧ (42 : Int) ≠ 0
    ∧ chars "Mill Deck" ≠ []
    ∧ ((∃ dm2, (set_active_deck_tool ⟨chars "t1", ⟨some DeckStateManager.empty, none⟩⟩ 42
          (chars "Mill Deck") (.error (chars "boom"))).deck_manager = some dm2
        ∧ dm2.get_state (chars "t1")
          = { active_deck_id := some 42, active_deck_name := some (chars "Mill Deck"),
              deck_contents := some (fetch_deck_contents 42 (.error (chars "boom"))) })
      ∧ ((handle_select_deck_action DeckStateManager.empty (chars "t1")
            ⟨some 42, some (chars "Mill Deck")⟩ false
            (.error (chars "boom"))).deck_manager.get_state (chars "t1")
          = { active_deck_id := some 42, active_deck_name := some (chars "Mill Deck"),
              deck_contents := none })) :=
  ⟨rfl, by decide, by decide,
    set_active_deck_paths_spec DeckStateManager.empty
      ⟨chars "t1", ⟨some DeckStateManager.empty, none⟩⟩ (chars "t1") 42
      (chars "Mill Deck") (.error (chars "boom")) false (.error (chars "boom"))
      rfl (by decide) (by decide)⟩

/-- Counterexample to C9 as stated: twelve decks yield exactly the text
"Found 12 deck list(s)." — no ten-deck listing and no "...and 2 more"
suffix occurs anywhere in the output. -/
theorem deck_list_summary_counterexample :
    get_user_decks_tool (.ok (some twelveDecks)) = chars "Found 12 deck list(s)."
    ∧ findSplit (chars "...and 2 more")
        (get_user_decks_tool (.ok (some twelveDecks))) = none := by
  exact ⟨by decide, by decide⟩

/-- C9 amended: for every deck list returned by the remote API, the tool's
text output never itemizes decks and never truncates: a fetch error yields
"Error: Error fetching deck lists: <exception>"; an empty list (or a
missing "decks" key) yields "You don't have any deck lists saved yet."; and
a non-empty list of N decks yields exactly "Found N deck list(s)." with the
full count N — so no ten-deck summary and no "...and N more" suffix is ever
produced. -/
theorem deck_list_summary_text (decks : List JsonObj) (e : Chars) :
    (get_user_decks_tool (.error e)
        = chars "Error: " ++ (chars "Error fetching deck lists: " ++ e))
    ∧ (get_user_decks_tool (.ok none)
        = chars "You don't have any deck lists saved yet.")
    ∧ (decks = [] → get_user_decks_tool (.ok (some decks))
        = chars "You don't have any deck lists saved yet.")
    ∧ (decks ≠ [] → get_user_decks_tool (.ok (some decks))
        = chars "Found " ++ natStr decks.length ++ chars " deck list(s).") := by
  refine ⟨?_, ?_, ?_, ?_⟩
  · simp [get_user_decks_tool, fetch_user_decks]
  · simp [get_user_decks_tool, fetch_user_decks]
  · intro h
    simp [get_user_decks_tool, fetch_user_decks, h]
  · intro h
    simp [get_user_decks_tool, fetch_user_decks, h]

/-- Witness for C9 amended at an HTTP failure, the empty deck list, and the
twelve-deck list. -/
theorem deck_list_summary_text_witness :
    (get_user_decks_tool (.error (chars "HTTP 500"))
        = chars "Error: " ++ (chars "Error fetching deck lists: " ++ chars "HTTP 500"))
    ∧ (([] : List JsonObj) = []
      ∧ get_user_decks_tool (.ok (some ([] : List JsonObj)))
          = chars "You don't have any deck lists saved yet.")
    ∧ (twelveDecks ≠ []
      ∧ get_user_decks_tool (.ok (some twelveDecks))
          = chars "Found " ++ natStr twelveDecks.length ++ chars " deck list(s).") :=
  ⟨(deck_list_summary_text twelveDecks (chars "HTTP 500")).1,
    ⟨rfl, (deck_list_summary_text ([] : List JsonObj) (chars "HTTP 500")).2.2.1 rfl⟩,
    ⟨by decide, (deck_list_summary_text twelveDecks (chars "HTTP 500")).2.2.2 (by decide)⟩⟩

/-- C10: a failed contents fetch yields a record with a populated error and
empty card lists; the set-active-deck tool caches that very record as the
thread's `deck_contents`, and so does the deck-state read endpoint when it
fetches; any cached record is then served by every subsequent read without
refetching (`fetched = false`, state unchanged); and the cache is reset
(back to `none`) exactly by setting or clearing the active deck. -/
theorem deck_contents_error_cached (dm : DeckStateManager) (t : ThreadId)
    (ctx : ToolContext) (deck_id deck_id2 : Int) (deck_name deck_name2 : Chars)
    (e : Chars) (anyResp : Except Chars DeckJson) :
    ((fetch_deck_contents deck_id (.error e)).error
        = some (chars "Error loading deck: " ++ e)
      ∧ (fetch_deck_contents deck_id (.error e)).deck = []
      ∧ (fetch_deck_contents deck_id (.error e)).sideboard = [])
    ∧ (ctx.request_context.deck_manager = some dm →
        ∃ dm2, (set_active_deck_tool ctx deck_id deck_name (.error e)).deck_manager
            = some dm2
          ∧ (dm2.get_state ctx.thread_id).deck_contents
            = some (fetch_deck_contents deck_id (.error e)))
    ∧ ((dm.get_state t).active_deck_id = some deck_id → deck_id ≠ 0 →
        (dm.get_state t).deck_contents = none →
        (get_deck_state dm t (.error e)).fetched = true
          ∧ (get_deck_state dm t (.error e)).response.deck_contents
            = some (fetch_deck_contents deck_id (.error e))
          ∧ (((get_deck_state dm t (.error e)).deck_manager.get_state t).deck_contents
            = some (fetch_deck_contents deck_id (.error e))))
    ∧ (∀ c, (dm.get_state t).deck_contents = some c →
        (get_deck_state dm t anyResp).fetched = false
          ∧ (get_deck_state dm t anyResp).response.deck_contents = some c
          ∧ (get_deck_state dm t anyResp).deck_manager.get_state t = dm.get_state t)
    ∧ ((((dm.set_active_deck t deck_id2 deck_name2).2.get_state t).deck_contents = none)
      ∧ (((dm.clear_active_deck t).2.get_state t).deck_contents = none)) := by
  refine ⟨⟨rfl, rfl, rfl⟩, ?_, ?_, ?_, ?_, ?_⟩
  · intro hctx
    simp only [set_active_deck_tool, hctx]
    refine ⟨_, rfl, ?_⟩
    simp [DeckStateManager.set_active_deck, DeckStateManager.put_state,
      DeckStateManager.get_state, DeckState.set_active_deck]
  · intro hid hnz hnone
    simp only [get_deck_state, DeckStateManager.get_state] at *
    rw [if_pos]
    · refine ⟨rfl, ?_, ?_⟩
      · simp [hid]
      · simp [DeckStateManager.put_state, DeckStateManager.get_state, hid]
    · refine ⟨?_, hnone⟩
      rw [hid]
      simp [intTruthy, hnz]
  · intro c hc
    simp only [get_deck_state, DeckStateManager.get_state] at *
    rw [if_neg]
    · exact ⟨rfl, by simp [hc], rfl⟩
    · simp [hc]
  · simp [DeckStateManager.set_active_deck, DeckStateManager.put_state,
      DeckStateManager.get_state, DeckState.set_active_deck]
  · simp [DeckStateManager.clear_active_deck, DeckStateManager.put_state,
      DeckStateManager.get_state, DeckState.clear_active_deck]

/-- Witness for C10: a concrete thread whose active deck is 42 with no
cached contents; the read endpoint caches the failed-fetch record; a
manager already caching a record serves it without refetching. -/
theorem deck_contents_error_cached_witness :
    ((DeckStateManager.empty.put_state (chars "t7")
        { active_deck_id := some 42, active_deck_name := some (chars "Mill Deck"),
          deck_contents := none }).get_state (chars "t7")).active_deck_id = some 42
    ∧ (42 : Int) ≠ 0
    ∧ ((DeckStateManager.empty.put_state (chars "t7")
        { active_deck_id := some 42, active_deck_name := some (chars "Mill Deck"),
          deck_contents := none }).get_state (chars "t7")).deck_contents = none
    ∧ ((get_deck_state (DeckStateManager.empty.put_state (chars "t7")
          { active_deck_id := some 42, active_deck_name := some (chars "Mill Deck"),
            deck_contents := none }) (chars "t7") (.error (chars "boom"))).fetched = true
      ∧ (get_deck_state (DeckStateManager.empty.put_state (chars "t7")
          { active_deck_id := some 42, active_deck_name := some (chars "Mill Deck"),
            deck_contents := none }) (chars "t7")
              (.error (chars "boom"))).response.deck_contents
          = some (fetch_deck_contents 42 (.error (chars "boom")))
      ∧ (((get_deck_state (DeckStateManager.empty.put_state (chars "t7")
          { active_deck_id := some 42, active_deck_name := some (chars "Mill Deck"),
            deck_contents := none }) (chars "t7")
              (.error (chars "boom"))).deck_manager.get_state (chars "t7")).deck_contents
          = some (fetch_deck_contents 42 (.error (chars "boom")))))
    ∧ ((deckStateCached.deck_contents = some (fetch_deck_contents 42 (.ok {})) →
        (get_deck_state (DeckStateManager.empty.put_state (chars "t7") deckStateCached)
            (chars "t7") (.error (chars "boom"))).fetched = false)) := by
  refine ⟨by decide, by decide, by decide, ?_, ?_⟩
  · exact (deck_contents_error_cached
      (DeckStateManager.empty.put_state (chars "t7")
        { active_deck_id := some 42, active_deck_name := some (chars "Mill Deck"),
          deck_contents := none }) (chars "t7") ⟨chars "t7", ⟨none, none⟩⟩
      42 7 (chars "Mill Deck") (chars "Other") (chars "boom")
      (.error (chars "boom"))).2.2.1 (by decide) (by decide) (by decide)
  · intro hc
    exact ((deck_contents_error_cached
      (DeckStateManager.empty.put_state (chars "t7") deckStateCached) (chars "t7")
      ⟨chars "t7", ⟨none, none⟩⟩ 42 7 (chars "Mill Deck") (chars "Other")
      (chars "boom") (.error (chars "boom"))).2.2.2.1
        (fetch_deck_contents 42 (.ok {})) (by decide)).1
